import Mathlib

set_option maxHeartbeats 1000000

/-!
Shallow embedding of the Zenfru-Agent backend (`backend2`): the call
analytics classifier (`services/call_analytics_service.py`), the
appointment availability computation (`services/getkolla_service.py`),
and the cleaned-transcript report (`api/transcript_summary_api.py`).

Conventions used throughout:
* Python strings are Lean `String`s, JSON numbers are `Int`/`Nat`.
* A JSON field that may be absent (or `null`, which the source treats the
  same way at every site we model) is an `Option`.
* `datetime` values are points on an absolute time line, measured in
  minutes since an epoch day (for the scheduling code) or seconds since
  the Unix epoch (for call timestamps); timezone conversions preserve the
  instant, which is all the modelled code observes.
* External effects (the OpenAI calls, the Kolla HTTP fetch, the Mongo
  query) are passed in as explicit oracle arguments.
-/

/-- Python substring test `needle in hay`. -/
def containsSub (hay needle : String) : Bool :=
  (List.range (hay.data.length + 1)).any (fun i => needle.data.isPrefixOf (hay.data.drop i))

/-- Python `str.lower`, restricted to ASCII letters, which covers every
keyword list appearing in the source. -/
def strLower (s : String) : String := String.mk (s.data.map Char.toLower)

/-- Python slicing `s[:n]`. -/
def strTake (s : String) (n : Nat) : String := String.mk (s.data.take n)

/-- Python `sep.join(parts)`. -/
def strJoin (sep : String) : List String → String
  | [] => ""
  | [x] => x
  | x :: xs => x ++ sep ++ strJoin sep xs

/-- Python `str.strip` (ASCII whitespace). -/
def pyStrip (s : String) : String :=
  String.mk (((s.data.dropWhile Char.isWhitespace).reverse.dropWhile Char.isWhitespace).reverse)

/-- Python `s.startswith(p)`. -/
def strStarts (s p : String) : Bool := p.data.isPrefixOf s.data

/-! Data model of the webhook payload, as read by
`CallAnalyticsService.analyze_call`.  Nested dictionary paths that the
source reads with chains of `.get(...)` defaults are flattened into
fields (e.g. `analysis["data_collection_results"]["reason"]["value"]`
becomes `reason_value`). -/

/-- One transcript turn: a dict with optional `role` and `message` keys. -/
structure Turn where
  role : Option String := none
  message : Option String := none
deriving DecidableEq

/-- One entry of `analysis["evaluation_criteria_results"]`. -/
structure EvalData where
  rationale : Option String := none
  result : Option String := none
deriving DecidableEq

/-- The `metadata["error"]` value when it is truthy.  `code` and `reason`
are the dict fields (absent when the value is not a dict); `repr` models
Python's `str(error)`. -/
structure ErrVal where
  code : Option Int := none
  reason : Option String := none
  repr : String := ""
deriving DecidableEq

/-- The `data["metadata"]` dict (a falsy value is normalised to `{}` by
the source, i.e. to all fields absent). -/
structure Metadata where
  call_duration_secs : Option Int := none
  start_time_unix_secs : Option Int := none
  termination_reason : Option String := none
  error : Option ErrVal := none
deriving DecidableEq

/-- The `data["analysis"]` dict.  `reason_value` flattens
`analysis["data_collection_results"]["reason"]["value"]`;
`evaluation_criteria_results` is the dict as an insertion-ordered
association list. -/
structure Analysis where
  reason_value : Option String := none
  transcript_summary : Option String := none
  evaluation_criteria_results : List (String × EvalData) := []
  call_successful : Option String := none
deriving DecidableEq

/-- The `payload["data"]` dict. -/
structure Payload where
  conversation_id : Option String := none
  status : Option String := none
  metadata : Metadata := {}
  analysis : Analysis := {}
  transcript : List Turn := []
deriving DecidableEq

/-- The record `analyze_call` builds.  `timestamp` is the instant chosen
at lines 350-352 (the start time when truthy, otherwise "now"); the
source renders it as a string with `strftime`. -/
structure Record where
  timestamp : Int
  conversation_id : String
  call_type : String
  call_status : String
  duration_secs : Int
  result_status : String
  failure_reason : Option String
  call_summary : String
deriving DecidableEq

/-! Keyword lists, copied from the source. -/

/-- The allowed call types given to the AI classifier. -/
def allowedTypes : List String :=
  ["booking", "rescheduling", "confirmation", "general query",
   "callback request", "incomplete transcript", "unknown"]

/-- Explicit callback intent phrases (line 173). -/
def callbackPhrases : List String :=
  ["callback request", "log a callback", "request a callback", "call me back",
   "someone call me back", "have someone call me", "have sissy call", "have the receptionist call",
   "can someone call", "please call me back", "leave a callback", "leave a message to call"]

/-- Incomplete-transcript phrases (line 182). -/
def incompletePhrases : List String :=
  ["transcript is incomplete", "too short to determine", "insufficient information",
   "could not determine call reason", "not enough information", "unable to determine the outcome",
   "insufficient context"]

/-- Resolution keywords (line 198). -/
def resolutionKeywords : List String :=
  ["appointment booked", "appointment scheduled", "booked for", "scheduled for", "your appointment is set",
   "successfully scheduled", "successfully booked",
   "confirmed for", "appointment confirmed", "confirmed the appointment", "appointment was confirmed",
   "appointment successfully confirmed", "successfully confirmed", "confirmation completed",
   "rescheduled", "successfully rescheduled", "reschedule completed", "moved to", "updated to",
   "callback request logged", "logged a callback request", "successfully logged a callback request",
   "logged a callback", "callback details confirmed", "confirmed the callback details",
   "will call you back", "we will call you back"]

/-- Intent keywords (line 212). -/
def intentKeywords : List String :=
  ["schedule", "book", "appointment", "reschedul", "confirm", "callback", "call back"]

/-- Negative markers (line 241; the same literal list is repeated at
line 290 of the source). -/
def negativeMarkers : List String :=
  ["unable to", "was unable to", "not able to", "couldn\x27t", "failed to", "cannot", "can\x27t",
   "didn\x27t manage to", "did not manage to"]

/-- Positive confirmation phrases (line 247). -/
def confirmationPositive : List String :=
  ["confirmed the appointment", "appointment was confirmed", "appointment confirmed",
   "successfully confirmed", "confirmation completed"]

/-- Positive booking phrases (line 251). -/
def bookingPositive : List String :=
  ["appointment booked", "appointment scheduled", "booked for", "scheduled for",
   "successfully scheduled", "successfully booked", "your appointment is set"]

/-- Positive rescheduling phrases (line 255). -/
def reschedulingPositive : List String :=
  ["rescheduled", "successfully rescheduled", "reschedule completed", "moved to", "updated to"]

/-- Markers for rescheduling via a logged callback (line 236). -/
def reschedViaCallbackMarkers : List String :=
  ["callback request", "logged a callback", "callback details confirmed"]

/-- Callback resolution markers (line 283). -/
def callbackResolutionMarkers : List String :=
  ["callback request logged", "logged a callback request", "successfully logged a callback request",
   "logged a callback", "callback details confirmed", "confirmed the callback details"]

/-- Intent markers used when clearing a failure after a logged callback (line 289). -/
def clearIntentMarkers : List String :=
  ["reschedul", "book", "schedule", "confirm"]

/-- Transfer intent markers (line 297). -/
def transferMarkers : List String :=
  ["transfer", "receptionist", "front desk", "connect me", "patch me", "speak with", "talk to"]

/-- Transfer inability markers (line 300). -/
def transferInabilityMarkers : List String :=
  ["unable to transfer", "cannot transfer", "can\x27t transfer", "did not transfer",
   "didn\x27t transfer", "couldn\x27t transfer"]

/-- Markers showing the summary reflects an abrupt or incomplete end (line 311). -/
def incompleteMarkers : List String :=
  ["conversation is incomplete", "ends abruptly", "abruptly", "incomplete transcript",
   "no further interaction", "insufficient information", "too short to determine"]

/-- Abrupt-ending markers (line 335). -/
def abruptMarkers : List String :=
  ["ends abruptly", "ended abruptly", "abruptly", "conversation is incomplete", "incomplete transcript",
   "no further interaction", "stopped responding", "hung up"]

/-- Technical-failure keywords for evaluation rationales (line 446). -/
def techRationaleKeywords : List String :=
  ["tool call failed", "tool failed", "tool error",
   "unable to retrieve", "failed to retrieve", "couldn\x27t retrieve",
   "failed to book", "couldn\x27t book", "unable to book",
   "failed to confirm", "couldn\x27t confirm", "unable to confirm",
   "failed to reschedule", "couldn\x27t reschedule", "unable to reschedule",
   "system error", "api error", "database error"]

/-- Words suggesting the patient wanted a human (line 471). -/
def wantedHumanWords : List String :=
  ["receptionist", "human", "person", "transfer", "assistant", "someone"]

/-- Words suggesting a language barrier (line 474). -/
def wantedSpanishWords : List String :=
  ["spanish", "español", "espanol"]

/-- Natural call-end words (line 483). -/
def naturalEndWords : List String :=
  ["bye", "thank", "okay", "ok"]

/-- Tool-failure keywords checked in the transcript summary (line 488). -/
def summaryToolFailureKeywords : List String :=
  ["tool call failed", "failed to retrieve", "unable to retrieve",
   "failed to book", "failed to confirm", "couldn\x27t book"]

/-- Transfer-limitation keywords checked in the transcript summary (line 495). -/
def summaryTransferKeywords : List String :=
  ["unable to transfer", "cannot transfer", "can\x27t transfer",
   "unable to directly transfer"]

/-- Loose technical-error keywords for remaining rationales (line 523). -/
def looseTechKeywords : List String :=
  ["tool", "failed to", "couldn\x27t", "unable to retrieve", "error", "failed"]

/-- The six failure-reason category labels `_determine_failure_reason` can emit. -/
def failureCategories : List String :=
  ["Network Issue:", "Inactivity Timeout:", "Technical Error:",
   "Early Hangup:", "AI limitation:", "Mid-Call Hangup:"]

/-- The bounded call-type vocabulary named by the specification. -/
def callTypeVocabulary : List String :=
  ["booking", "rescheduling", "confirmation", "general query",
   "callback request", "incomplete transcript", "unknown", "no conversation"]

/-! The AI classifier `_ai_classify_call` (lines 21-80).  The external
interaction — OpenAI client presence, the HTTP call, and JSON extraction
from the raw completion — is modelled as an oracle: `none` when there is
no client, the API raises, or no JSON dict can be parsed from the reply;
`some (ctype, summary)` for the parsed dict's `call_type` and `summary`
fields. -/

/-- Model of `_ai_classify_call`: validates the parsed oracle reply
exactly as lines 73-78 do and returns `(call_type, summary)` or
`(none, none)`. -/
def ai_classify_call (oracle : Option (Option String × Option String)) :
    Option String × Option String :=
  match oracle with
  | none => (none, none)
  | some (ctype, summaryField) =>
    let summary := summaryField.getD ("")
    match ctype with
    | some c => if c ∈ allowedTypes then (some c, some (strTake summary 300)) else (none, none)
    | none => (none, none)

/-! Stage 0 of `analyze_call`: the call summary (lines 144-163). -/

/-- Lookup in the `evaluation_criteria_results` dict. -/
def lookupEval (k : String) (evals : List (String × EvalData)) : Option EvalData :=
  (evals.find? (fun e => e.1 = k)).map (fun e => e.2)

/-- The call summary derived at lines 149-163: the `zenfrueval` rationale
when present, else the transcript summary, else the first two other
rationales joined and truncated to 500 characters. -/
def callSummary0 (a : Analysis) : String :=
  let zen := ((lookupEval ("zenfrueval") a.evaluation_criteria_results).bind EvalData.rationale).getD ("")
  if zen ≠ "" then zen
  else if a.transcript_summary.getD ("") ≠ "" then a.transcript_summary.getD ("")
  else
    let rationales := a.evaluation_criteria_results.filterMap (fun e =>
      match e.2.rationale with
      | some r => if r ≠ "" then some r else none
      | none => none)
    if rationales ≠ [] then strTake (strJoin (" ") (rationales.take 2)) 500 else ""

/-! Stage 1 of `analyze_call`: callback / incomplete-transcript
classification (lines 165-193). -/

/-- Lowercased messages of every transcript turn (line 167). -/
def lowerMessages (transcript : List Turn) : List String :=
  transcript.map (fun t => strLower (t.message.getD ("")))

/-- All lowercased messages joined (line 168). -/
def userTextAll (transcript : List Turn) : String :=
  strJoin (" ") (lowerMessages transcript)

/-- The lowercased user messages joined (line 169). -/
def userMessagesOnly (transcript : List Turn) : String :=
  strJoin (" ") ((transcript.zip (lowerMessages transcript)).filterMap
    (fun p => if p.1.role = some ("user") then some p.2 else none))

/-- Number of transcript turns whose role is `"user"` (line 130). -/
def userMsgCount (transcript : List Turn) : Nat :=
  (transcript.filter (fun t => t.role = some ("user"))).length

/-- Explicit callback intent (line 178). -/
def callbackHit (transcript : List Turn) (call_summary : String) : Bool :=
  callbackPhrases.any (fun p => containsSub (userMessagesOnly transcript) p) ||
  callbackPhrases.any (fun p => containsSub (strLower call_summary) p)

/-- The numeric too-short test of line 189. -/
def tooShortNumeric (transcript : List Turn) (duration : Int) : Bool :=
  decide (duration < 12) || decide (transcript.length < 3) || decide (userMsgCount transcript = 0)

/-- The incomplete-mention test of line 190. -/
def mentionsIncomplete (transcript : List Turn) (call_summary : String) : Bool :=
  incompletePhrases.any (fun p => containsSub (strLower call_summary) p) ||
  incompletePhrases.any (fun p => containsSub (userTextAll transcript) p)

/-- Lines 165-193: when the call type is still `"unknown"` or
`"general query"`, detect explicit callback intent, else classify
too-short or incomplete calls. -/
def callbackStage (transcript : List Turn) (duration : Int) (call_summary : String)
    (ct : String) : String :=
  if ct = "unknown" ∨ ct = "general query" then
    if callbackHit transcript call_summary then "callback request"
    else if tooShortNumeric transcript duration || mentionsIncomplete transcript call_summary then
      "incomplete transcript"
    else ct
  else ct

/-! Stage 2 of `analyze_call`: summary-based overrides (lines 195-258). -/

/-- Resolution detected in the lowercased summary (line 215). -/
def hasResolution (sl : String) : Bool := resolutionKeywords.any (fun k => containsSub sl k)

/-- Intent without resolution (line 216). -/
def hasIntentOnly (sl : String) : Bool :=
  !hasResolution sl && intentKeywords.any (fun k => containsSub sl k)

/-- Whether the agent spoke last (line 217). -/
def agentLast (transcript : List Turn) : Bool :=
  match transcript.getLast? with
  | some t => t.role = some ("agent")
  | none => false

/-- Call types eligible for the intent-retention override (line 221). -/
def intentEligible : List String :=
  ["booking", "rescheduling", "confirmation", "general query", "unknown", "incomplete transcript"]

/-- Intent-type derivation of lines 223-229. -/
def deriveIntentType (sl ct : String) : String :=
  if ct = "general query" ∨ ct = "unknown" ∨ ct = "incomplete transcript" then
    if containsSub sl ("reschedul") then "rescheduling"
    else if containsSub sl ("confirm") then "confirmation"
    else if containsSub sl ("schedule") || containsSub sl ("book") || containsSub sl ("appointment") then
      "booking"
    else ct
  else ct

/-- Lines 219-230: retain the expressed intent when the agent spoke last,
marking the intent unresolved. -/
def summaryOverride1 (transcript : List Turn) (sl ct : String) : String × Bool :=
  if hasIntentOnly sl && agentLast transcript && decide (ct ∈ intentEligible) then
    (deriveIntentType sl ct, true)
  else (ct, false)

/-- Lines 231-233: greeting + inquiry without progress also marks the
intent unresolved. -/
def unresolvedExtra (sl : String) : Bool :=
  (containsSub sl ("greeted") || containsSub sl ("inquired")) &&
  hasIntentOnly sl && !hasResolution sl

/-- Lines 235-238: rescheduling via a logged callback. -/
def reschedCallbackFix (sl ct : String) : String :=
  if containsSub sl ("reschedul") && reschedViaCallbackMarkers.any (fun cb => containsSub sl cb) &&
      decide (ct = "incomplete transcript") then
    "rescheduling"
  else ct

/-- Absence of negative markers (line 245). -/
def isPositive (sl : String) : Bool := !(negativeMarkers.any (fun n => containsSub sl n))

/-- Lines 240-258: positive success signals force an explicit call type. -/
def positiveOverride (sl ct : String) : String :=
  if isPositive sl then
    if confirmationPositive.any (fun p => containsSub sl p) then "confirmation"
    else if bookingPositive.any (fun p => containsSub sl p) then "booking"
    else if reschedulingPositive.any (fun p => containsSub sl p) then "rescheduling"
    else ct
  else ct

/-- The whole summary-override pass (lines 195-258); returns the new call
type and the `unresolved_intent` flag. -/
def summaryStage (transcript : List Turn) (call_summary ct0 : String) : String × Bool :=
  if call_summary = "" then (ct0, false)
  else
    let sl := strLower call_summary
    let s1 := summaryOverride1 transcript sl ct0
    (positiveOverride sl (reschedCallbackFix sl s1.1), s1.2 || unresolvedExtra sl)

/-! Stage 3 of `analyze_call`: the AI fallback (lines 260-266). -/

/-- Lines 260-266: when the call type is still `"unknown"`, adopt a
truthy AI type and a truthy AI summary (the latter only if no summary
exists yet). -/
def aiStage (aiRes : Option String × Option String) (ct cs : String) : String × String :=
  if ct = "unknown" then
    (match aiRes.1 with
     | some c => if c = "" then ct else c
     | none => ct,
     match aiRes.2 with
     | some s => if s ≠ "" ∧ cs = "" then s else cs
     | none => cs)
  else (ct, cs)

/-- The call type before any pass: the collected reason value when
truthy, else `"unknown"` (line 142). -/
def initialCallType (p : Payload) : String :=
  match p.analysis.reason_value with
  | some v => if v = "" then "unknown" else v
  | none => "unknown"

/-- The call type after all rule-based and summary-override passes
(everything before the AI fallback of line 260). -/
def ruleCallType (p : Payload) : String :=
  (summaryStage p.transcript (callSummary0 p.analysis)
    (callbackStage p.transcript (p.metadata.call_duration_secs.getD 0) (callSummary0 p.analysis)
      (initialCallType p))).1

/-- The `unresolved_intent` flag produced by the rule passes. -/
def ruleUnresolved (p : Payload) : Bool :=
  (summaryStage p.transcript (callSummary0 p.analysis)
    (callbackStage p.transcript (p.metadata.call_duration_secs.getD 0) (callSummary0 p.analysis)
      (initialCallType p))).2

/-! The failure-reason engine `_determine_failure_reason` (lines 412-533).
`sAI` is the `_summarize_with_ai` oracle: given the text and the category
it returns the summary string (the source falls back to `text[:100]`
when there is no client or the API errors; any string is a possible
oracle value, so this covers every behaviour). -/

/-- Step 1 (lines 423-435): network/system errors from `metadata["error"]`. -/
def dfrError (m : Metadata) : Option String :=
  match m.error with
  | none => none
  | some e =>
    let error_reason := match e.reason with
      | some r => if r = "" then e.repr else r
      | none => e.repr
    if e.code = some 1002 ∨ containsSub error_reason ("No user message received") then
      some ("Network Issue: Patient\x27s connection dropped or phone signal lost")
    else if containsSub (strLower error_reason) ("timeout") then
      some ("Inactivity Timeout: Patient stopped responding")
    else some ("Technical Error: " ++ strTake error_reason 80)

/-- Step 2 (lines 437-455): the first failed evaluation whose rationale
matches a technical keyword. -/
def dfrEvalTech (sAI : String → String → String) :
    List (String × EvalData) → Option String
  | [] => none
  | e :: rest =>
    let rationale := e.2.rationale.getD ("")
    if e.2.result.getD ("") = "failure" ∧ rationale ≠ "" ∧
        techRationaleKeywords.any (fun k => containsSub (strLower rationale) k) then
      some ("Technical Error: " ++ sAI rationale ("Technical Error"))
    else dfrEvalTech sAI rest

/-- Step 3 (lines 457-506): termination/hangup analysis.  Returns `none`
when the termination reason does not match a hangup pattern (fall
through to the later steps), and `some r` when the hangup branch is
taken, where `r` is what the source returns there (`r = none` is the
natural-end early return of line 503). -/
def dfrTermination (transcript : List Turn) (termination : String) (call_duration : Int)
    (transcript_summary : String) (sAI : String → String → String) :
    Option (Option String) :=
  if containsSub (strLower termination) ("hung up") ||
      containsSub (strLower termination) ("ended by remote") then
    some (
      if call_duration < 10 then some ("Early Hangup: Patient hung up within first 10 seconds")
      else
        match (transcript.filter (fun t => t.role = some ("user"))).getLast? with
        | some lastTurn =>
          let lastMsg := strLower (lastTurn.message.getD (""))
          if wantedSpanishWords.any (fun w => containsSub lastMsg w) then
            some ("AI limitation: Agent cannot speak Spanish")
          else if wantedHumanWords.any (fun w => containsSub lastMsg w) then
            some ("AI limitation: Agent cannot transfer calls to receptionist")
          else if naturalEndWords.any (fun w => containsSub lastMsg w) then
            if transcript_summary ≠ "" then
              if summaryToolFailureKeywords.any (fun k => containsSub (strLower transcript_summary) k) then
                some ("Technical Error: " ++ sAI transcript_summary ("Technical Error"))
              else if summaryTransferKeywords.any (fun k => containsSub (strLower transcript_summary) k) then
                some ("AI limitation: Agent cannot transfer calls to receptionist")
              else none
            else none
          else some ("Mid-Call Hangup: Patient hung up during conversation")
        | none => some ("Mid-Call Hangup: Patient hung up during conversation"))
  else none

/-- Step 6 (lines 516-531): remaining long rationales become technical
errors or AI limitations. -/
def dfrEvalRemaining (sAI : String → String → String) :
    List (String × EvalData) → Option String
  | [] => none
  | e :: rest =>
    let rationale := e.2.rationale.getD ("")
    if rationale ≠ "" ∧ rationale.data.length > 20 then
      if looseTechKeywords.any (fun k => containsSub (strLower rationale) k) then
        some ("Technical Error: " ++ sAI rationale ("Technical Error"))
      else some ("AI limitation: " ++ sAI rationale ("AI limitation"))
    else dfrEvalRemaining sAI rest

/-- The whole `_determine_failure_reason` (lines 412-533), chaining the
six layered steps. -/
def determine_failure_reason (p : Payload) (sAI : String → String → String) : Option String :=
  let termination := p.metadata.termination_reason.getD ("")
  let call_duration := p.metadata.call_duration_secs.getD 0
  let transcript_summary := p.analysis.transcript_summary.getD ("")
  match dfrError p.metadata with
  | some r => some r
  | none =>
  match dfrEvalTech sAI p.analysis.evaluation_criteria_results with
  | some r => some r
  | none =>
  match dfrTermination p.transcript termination call_duration transcript_summary sAI with
  | some r => r
  | none =>
  if containsSub (strLower termination) ("timeout") then
    some ("Inactivity Timeout: Patient stopped responding")
  else if call_duration < 5 then
    some ("Early Hangup: Call lasted less than 5 seconds")
  else
  match dfrEvalRemaining sAI p.analysis.evaluation_criteria_results with
  | some r => some r
  | none => some ("Mid-Call Hangup: Call ended after " ++ toString call_duration ++ "s")

/-! Stage 4 of `analyze_call`: success/failure determination
(lines 268-347). -/

/-- Lines 280-294: clear the failure when the summary shows a resolved
outcome via a logged callback. -/
def callbackResolutionClear (slp : String) (fr : Option String) : Option String :=
  match fr with
  | none => none
  | some r =>
    if callbackResolutionMarkers.any (fun m => containsSub slp m) then
      if clearIntentMarkers.any (fun x => containsSub slp x) then
        if negativeMarkers.any (fun n => containsSub slp n) then some r else none
      else some r
    else some r

/-- Transfer intent in the post-AI summary (line 303). -/
def hasTransferIntent (slp : String) : Bool := transferMarkers.any (fun k => containsSub slp k)

/-- Lines 296-308: prefer the specific transfer AI limitation. -/
def transferLimitationFix (slp : String) (fr : Option String) : Option String :=
  if hasTransferIntent slp &&
      (transferInabilityMarkers.any (fun k => containsSub slp k) ||
       containsSub slp ("assistant") || containsSub slp ("receptionist")) then
    match fr with
    | none => some ("AI limitation: Agent cannot transfer calls to receptionist")
    | some r =>
      if strStarts r ("AI limitation") || strStarts r ("Incomplete Transcript") ||
          strStarts r ("Mid-Call Hangup") then
        some ("AI limitation: Agent cannot transfer calls to receptionist")
      else some r
  else fr

/-- Lines 310-316: prefer a hangup over a generic AI limitation when the
summary indicates an abrupt or incomplete end. -/
def abruptHangupFix (slp : String) (fr : Option String) : Option String :=
  match fr with
  | none => none
  | some r =>
    if strStarts r ("AI limitation") && incompleteMarkers.any (fun m => containsSub slp m) &&
        !hasTransferIntent slp then
      some ("Mid-Call Hangup: Patient hung up during conversation")
    else some r

/-- Lines 318-325: treat a previously unknown outcome as a failure when
there was no user input or the transcript is incomplete. -/
def unknownStatusFix (call_successful ct : String) (umc : Nat) (fr : Option String) :
    Option String :=
  if call_successful = "unknown" ∧ fr = none ∧ (ct = "incomplete transcript" ∨ umc = 0) then
    some (if umc = 0 then "No User Input: Patient did not respond"
          else "Mid-Call Hangup: Patient hung up during conversation")
  else fr

/-- Lines 327-347: the final success/failure decision from the adjusted
failure reason. -/
def failureOutcome (ct : String) (unres : Bool) (slp : String) (fr : Option String) :
    String × Option String :=
  match fr with
  | none =>
    if unres then ("Failure", some ("Mid-Call Hangup: Patient hung up during conversation"))
    else if ct = "incomplete transcript" then
      ("Failure", some (if abruptMarkers.any (fun m => containsSub slp m) then
          "Mid-Call Hangup: Patient hung up during conversation"
        else "Incomplete Transcript: Conversation ended before resolution"))
    else ("Success", none)
  | some r => ("Failure", some r)

/-- The whole success/failure pass (lines 268-347): returns
`(result_status, failure_reason)` given the post-AI call type `ct`,
post-AI summary `cs`, the unresolved-intent flag, and the user message
count. -/
def resultStage (p : Payload) (sAI : String → String → String) (cs ct : String)
    (unres : Bool) (umc : Nat) : String × Option String :=
  if p.analysis.call_successful.getD ("unknown") = "success" then ("Success", none)
  else
    failureOutcome ct unres (strLower cs)
      (unknownStatusFix (p.analysis.call_successful.getD ("unknown")) ct umc
        (abruptHangupFix (strLower cs)
          (transferLimitationFix (strLower cs)
            (callbackResolutionClear (strLower cs) (determine_failure_reason p sAI)))))

/-! The full `analyze_call` (lines 117-375). -/

/-- The record built by the body of `analyze_call`'s `try` block.
`aiOracle` is the oracle of `ai_classify_call`, `sAI` the summarisation
oracle, and `now` the current time (seconds since the Unix epoch) used
when the payload has no truthy start time. -/
def analyzeRecord (p : Payload) (aiOracle : Option (Option String × Option String))
    (sAI : String → String → String) (now : Int) : Record :=
  let umc := userMsgCount p.transcript
  let duration_secs := p.metadata.call_duration_secs.getD 0
  let cs0 := callSummary0 p.analysis
  let s3 := aiStage (ai_classify_call aiOracle) (ruleCallType p) cs0
  let rs := resultStage p sAI s3.2 s3.1 (ruleUnresolved p) umc
  let tsec : Int := match p.metadata.start_time_unix_secs with
    | some t => if t = 0 then now else t
    | none => now
  { timestamp := tsec
    conversation_id := p.conversation_id.getD ("unknown")
    call_type := if umc = 0 then "no conversation" else s3.1
    call_status := p.status.getD ("unknown")
    duration_secs := duration_secs
    result_status := if umc = 0 then "-" else rs.1
    failure_reason := if umc = 0 then none else rs.2
    call_summary := s3.2 }

/-- The full `analyze_call`: the `exc` flag models whether an internal
exception is raised while analysing (the `except` branch of lines
373-375 returns `None`). -/
def analyze_call (p : Payload) (aiOracle : Option (Option String × Option String))
    (sAI : String → String → String) (now : Int) (exc : Bool) : Option Record :=
  if exc then none else some (analyzeRecord p aiOracle sAI now)

/-!
Embedding of `GetKollaService` (`services/getkolla_service.py`).

Times of day are minutes since midnight; `datetime` values are minutes
since an epoch day (1970-01-01, a Thursday), so `date()` is division by
1440 and `replace(hour=h, minute=m)` keeps the day and replaces the
minutes.  Appointments are stored with their already-parsed wall times:
`_parse_appointment_time` either parses the field to a `datetime` or
returns `None` on a missing field or a parse error, which the `Option
Nat` fields model directly.  The Kolla HTTP fetch
(`get_booked_appointments`) is an oracle argument.
-/

/-- Parse one strptime numeric field (one or two digits). -/
def parseField : List Char → Option (Nat × List Char)
  | [] => none
  | c1 :: rest =>
    if c1.isDigit then
      match rest with
      | c2 :: rest2 =>
        if c2.isDigit then some ((c1.toNat - 48) * 10 + (c2.toNat - 48), rest2)
        else some (c1.toNat - 48, rest)
      | [] => some (c1.toNat - 48, [])
    else none

/-- Model of `datetime.strptime(s, "%I:%M %p")`, returning minutes since
midnight; `%p` is matched case-insensitively like strptime does. -/
def parse12h (s : String) : Option Nat :=
  match parseField s.data with
  | some (h, c :: rest) =>
    if c = ':' then
      match parseField rest with
      | some (m, sp :: p1 :: p2 :: []) =>
        if 1 ≤ h ∧ h ≤ 12 ∧ m ≤ 59 ∧ sp = ' ' ∧ p2.toLower = 'm' then
          if p1.toLower = 'p' then some ((if h = 12 then 12 else h + 12) * 60 + m)
          else if p1.toLower = 'a' then some ((if h = 12 then 0 else h) * 60 + m)
          else none
        else none
      | _ => none
    else none
  | _ => none

/-- Model of `datetime.strptime(s, "%H:%M")`, returning minutes since
midnight. -/
def parse24h (s : String) : Option Nat :=
  match parseField s.data with
  | some (h, c :: rest) =>
    if c = ':' then
      match parseField rest with
      | some (m, []) => if h ≤ 23 ∧ m ≤ 59 then some (h * 60 + m) else none
      | _ => none
    else none
  | _ => none

/-- Model of `_parse_time` (lines 43-52): try 12-hour, then 24-hour, then
fall back to 09:00. -/
def parse_time (s : String) : Nat :=
  match parse12h s with
  | some m => m
  | none =>
    match parse24h s with
    | some m => m
    | none => 540

/-- Zero-padded two-digit rendering. -/
def pad2 (n : Nat) : String := if n < 10 then "0" ++ toString n else toString n

/-- Model of `strftime("%I:%M %p").lstrip(\x27 0\x27)` applied to a time of
day given in minutes (line 99): 12-hour clock with the hour's leading
zero stripped. -/
def fmt12 (m : Nat) : String :=
  let h24 := (m / 60) % 24
  let h12 := if h24 % 12 = 0 then 12 else h24 % 12
  toString h12 ++ ":" ++ pad2 (m % 60) ++ " " ++ (if h24 < 12 then "AM" else "PM")

/-- The lunch-break overlap test of line 94: the slot `[cur, cur+dur)` is
skipped unless it ends on or before the break starts or starts on or
after it ends. -/
def lunchSkip (lunch : Option (Nat × Nat)) (cur dur : Nat) : Bool :=
  match lunch with
  | some l => !(decide (cur + dur ≤ l.1) || decide (l.2 ≤ cur))
  | none => false

/-- The body of the `while` loop of `_generate_time_slots`
(lines 85-102), producing the slot start times in minutes.  The `fuel`
argument only makes the loop total in Lean: with `0 < dur` a fuel of
`endT + 1` can never run out, and the source loops forever when the slot
duration is not positive, so the model is meaningful only for
`0 < dur`. -/
def genSlotsAux (dur endT : Nat) (lunch : Option (Nat × Nat)) : Nat → Nat → List Nat
  | 0, _ => []
  | fuel + 1, cur =>
    if cur + dur ≤ endT then
      (if lunchSkip lunch cur dur then [] else [cur]) ++
        genSlotsAux dur endT lunch fuel (cur + dur)
    else []

/-- The `while` loop of `_generate_time_slots` (lines 85-102). -/
def genSlotsMin (cur endT dur : Nat) (lunch : Option (Nat × Nat)) : List Nat :=
  genSlotsAux dur endT lunch (endT + 1) cur

/-- Model of `_generate_time_slots` (lines 75-104): generate the slot
start times between the parsed opening and closing times, skipping the
lunch break, formatted on the 12-hour clock.  (The source re-parses the
lunch-break strings on every loop iteration; the values never change, so
the parse is hoisted.) -/
def generate_time_slots (start_time end_time : String) (slot_duration : Nat)
    (lunch_break : Option (String × String)) : List String :=
  (genSlotsMin (parse_time start_time) (parse_time end_time) slot_duration
    (lunch_break.map (fun l => (parse_time l.1, parse_time l.2)))).map fmt12

/-- One appointment returned by the Kolla API.  The wall times carry the
result of `_parse_appointment_time` (lines 235-256): `none` when the
field is missing or unparseable, otherwise the parsed `datetime` in
minutes since the epoch day. -/
structure Appointment where
  cancelled : Bool := false
  broken : Bool := false
  wall_start_time : Option Nat := none
  wall_end_time : Option Nat := none
deriving DecidableEq

/-- One day's entry of `schedule.json`. -/
structure DaySchedule where
  status : Option String := none
  openTime : Option String := none
  closeTime : Option String := none
  default_slot_duration : Option Nat := none
  lunch_break : Option (String × String) := none
deriving DecidableEq

/-- Python `dt.date()` on the minute time line: the day index. -/
def dateOf (dt : Nat) : Nat := dt / 1440

/-- Python `dt.replace(hour=h, minute=m, second=0, microsecond=0)` where
the new time of day is `m` minutes. -/
def replaceTime (dt m : Nat) : Nat := dateOf dt * 1440 + m

/-- The per-slot conflict check of lines 291-310: a slot survives when no
fetched appointment that is neither cancelled nor broken, has a parsed
start on the target date, overlaps `[slot_start, slot_start+duration)`,
where a missing end time defaults to start plus 30 minutes. -/
def slotConflictFree (target duration : Nat) (booked : List Appointment)
    (slotStr : String) : Bool :=
  let slot_start := replaceTime target (parse_time slotStr)
  let slot_end := slot_start + duration
  booked.all (fun apt =>
    if apt.cancelled || apt.broken then true
    else
      match apt.wall_start_time with
      | none => true
      | some aptStart =>
        if dateOf aptStart = dateOf target then
          decide (slot_end ≤ aptStart ∨ apt.wall_end_time.getD (aptStart + 30) ≤ slot_start)
        else true)

/-- Full weekday names; day 0 of the epoch (1970-01-01) is a Thursday.
Models `_get_day_name` / `strftime("%A")`. -/
def weekdayNames : List String :=
  ["Thursday", "Friday", "Saturday", "Sunday", "Monday", "Tuesday", "Wednesday"]

/-- Model of `_get_day_name` (lines 54-56). -/
def dayName (day : Nat) : String := weekdayNames.getD (day % 7) ""

/-- Model of `get_available_slots_for_date` (lines 258-320): empty when
the day is closed or lacks an open or close time, otherwise the
generated slots filtered by the appointment-conflict check.  `booked` is
the oracle for the `get_booked_appointments` fetch of line 282. -/
def get_available_slots_for_date (sched : String → DaySchedule)
    (booked : List Appointment) (target_date : Nat) : List String :=
  let ds := sched (dayName (dateOf target_date))
  if ds.status = some ("Closed") then []
  else
    match ds.openTime, ds.closeTime with
    | some ot, some ct =>
      if ot = "" ∨ ct = "" then []
      else
        (generate_time_slots ot ct (ds.default_slot_duration.getD 30) ds.lunch_break).filter
          (slotConflictFree target_date (ds.default_slot_duration.getD 30) booked)
    | _, _ => []

/-- Civil-calendar date (year, month, day of month) of a day count since
1970-01-01; models the date part of the Gregorian calendar used by
`strftime("%Y-%m-%d")`. -/
def civilFromDays (day : Nat) : Nat × Nat × Nat :=
  let z := day + 719468
  let era := z / 146097
  let doe := z % 146097
  let yoe := (doe - doe / 1460 + doe / 36524 - doe / 146097) / 365
  let y := yoe + era * 400
  let doy := doe - (365 * yoe + yoe / 4 - yoe / 100)
  let mp := (5 * doy + 2) / 153
  let d := doy - (153 * mp + 2) / 5 + 1
  let mo := if mp < 10 then mp + 3 else mp - 9
  (if mo ≤ 2 then y + 1 else y, mo, d)

/-- Zero-padded four-digit rendering. -/
def pad4 (n : Nat) : String :=
  if n < 10 then "000" ++ toString n
  else if n < 100 then "00" ++ toString n
  else if n < 1000 then "0" ++ toString n
  else toString n

/-- Model of `strftime("%Y-%m-%d")` for a day count since the epoch. -/
def formatDate (day : Nat) : String :=
  let c := civilFromDays day
  pad4 c.1 ++ "-" ++ pad2 c.2.1 ++ "-" ++ pad2 c.2.2

/-- The dictionary key built at line 336: `"DayName (YYYY-MM-DD)"`. -/
def dayKey (day : Nat) : String := dayName day ++ " (" ++ formatDate day ++ ")"

/-- Model of `get_available_slots_next_7_days` (lines 322-343): an
insertion-ordered association list over the 7 consecutive days starting
`today` (a `datetime`, minutes since the epoch), keeping only days with
a non-empty slot list.  `bookedFor` is the per-day appointment-fetch
oracle. -/
def get_available_slots_next_7_days (sched : String → DaySchedule)
    (bookedFor : Nat → List Appointment) (today : Nat) : List (String × List String) :=
  (List.range 7).filterMap (fun i =>
    let target := today + i * 1440
    let slots := get_available_slots_for_date sched (bookedFor target) target
    if slots.isEmpty then none else some (dayKey (dateOf target), slots))

/-!
Embedding of `get_cleaned_transcripts_last_24h`
(`api/transcript_summary_api.py`, lines 41-103).

The Mongo query result is an oracle argument (a list of raw webhook
documents); the nested dictionary paths the endpoint reads are flattened
into fields.  `received_at_utc` is an instant (minutes since the epoch);
`astimezone(ZoneInfo("America/New_York"))` re-labels the same instant,
and aware datetimes compare by instant, so the EST conversion is the
identity on the modelled time line.
-/

/-- One raw webhook document, with the fields the endpoint reads:
`payload.data.transcript`, the collected name and number values, the
caller id from `metadata.phone_call.external_number`, and the stored
receive time. -/
structure RawDoc where
  transcript : List Turn := []
  name_value : Option String := none
  number_value : Option String := none
  external_number : Option String := none
  received_at_utc : Option Nat := none
deriving DecidableEq

/-- One cleaned entry of the report. -/
structure CleanedEntry where
  name : Option String := none
  phone_number : Option String := none
  est_time : Option Nat := none
  conversation : String := ""
deriving DecidableEq

/-- Python `str.capitalize`: first character upper-cased, the rest
lower-cased (ASCII, which covers the roles `"agent"` and `"user"`). -/
def pyCapitalize (s : String) : String :=
  match s.data with
  | [] => ""
  | c :: cs => String.mk (c.toUpper :: cs.map Char.toLower)

/-- The turn filter of line 65: role is `"agent"` or `"user"` and the
message is truthy. -/
def convKeep (t : Turn) : Bool :=
  (t.role = some ("agent") || t.role = some ("user")) &&
  (match t.message with
   | some m => m ≠ ""
   | none => false)

/-- The formatted line of line 66: `"Role: message"`. -/
def convLine (t : Turn) : String :=
  pyCapitalize (t.role.getD ("")) ++ ": " ++ t.message.getD ("")

/-- Model of `format_us_phone_number` (lines 27-38). -/
def format_us_phone_number (number : Option String) : Option String :=
  match number with
  | none => none
  | some n0 =>
    if n0 = "" then none
    else
      let n := pyStrip n0
      if strLower n = "null" ∨ n = "" then none
      else if strStarts n ("+1") ∧ n.data.length = 12 then
        some (String.mk ((n.data.drop 2).take 3) ++ "-" ++
              String.mk ((n.data.drop 5).take 3) ++ "-" ++
              String.mk ((n.data.drop 8).take 4))
      else some n

/-- Python `a or b` for the phone-number source of lines 76-82. -/
def phoneSource (d : RawDoc) : Option String :=
  match d.number_value with
  | some v => if v = "" then d.external_number else some v
  | none => d.external_number

/-- Lines 54-98: the cleaned entry built from one raw document. -/
def cleanedOf (d : RawDoc) : CleanedEntry :=
  { name := d.name_value
    phone_number := format_us_phone_number (phoneSource d)
    est_time := d.received_at_utc
    conversation := strJoin ("\n") ((d.transcript.filter convKeep).map convLine) }

/-- Model of `datetime.max` on the minute time line (9999-12-31 23:59,
the sentinel the sort key of line 101 uses for entries without a time).
In the source this sentinel is a naive `datetime`, unlike the
timezone-aware `est_time` values. -/
def datetimeMax : Nat := 2932896 * 1440 + 1439

/-- The sort key of line 101, on the inputs where the sort returns
(see `sortRaises`): there every comparison the sort performs is between
two aware instants or between two copies of the naive sentinel, so a
numeric key renders the order faithfully. -/
def sortKey (t : Option Nat) : Nat := t.getD datetimeMax

/-- The comparison `list.sort` uses, lifted to entries. -/
def estLe (a b : CleanedEntry) : Prop := sortKey a.est_time ≤ sortKey b.est_time

instance : DecidableRel estLe := fun a b => Nat.decLe _ _

instance : IsTotal CleanedEntry estLe := ⟨fun a b => Nat.le_total _ _⟩

instance : IsTrans CleanedEntry estLe := ⟨fun _ _ _ => Nat.le_trans⟩

/-- Python raises `TypeError` when ordering an aware `datetime` against
a naive one.  The sort key of line 101 is the timezone-aware `est_time`
when present and the naive `datetime.max` otherwise, and `list.sort`
always compares adjacent keys, so the sort of line 101 raises exactly
when the cleaned list mixes timed and timeless entries. -/
def sortRaises (l : List CleanedEntry) : Bool :=
  l.any (fun e => e.est_time.isNone) && l.any (fun e => e.est_time.isSome)

/-- Model of `get_cleaned_transcripts_last_24h` (lines 41-103): clean
each fetched document, then sort by `est_time` with absent times keyed
as `datetime.max`.  The present `est_time` values are timezone-aware
while the `datetime.max` sentinel is naive, and Python refuses to order
aware against naive, so on a cleaned list mixing timed and timeless
entries the `list.sort` of line 101 raises `TypeError` and the endpoint,
which has no handler, errors instead of returning: `none` models that
error path.  On the remaining inputs Python's `list.sort` is a stable
sort by key; insertion sort is also stable, so the observable result
agrees. -/
def get_cleaned_transcripts_last_24h (docs : List RawDoc) : Option (List CleanedEntry) :=
  let cleaned := docs.map cleanedOf
  if sortRaises cleaned then none
  else some (cleaned.insertionSort estLe)

/-! Auxiliary definitions for the verification below: the failure-reason
category predicate, trivial oracles, and concrete example inputs. -/

/-- The string carries one of the six failure categories as a prefix. -/
def hasFailureCategory (s : String) : Prop :=
  ∃ c ∈ failureCategories, strStarts s c = true

/-- A trivial summarisation oracle (one possible `_summarize_with_ai`
behaviour). -/
def sAITrivial : String → String → String := fun _ _ => ""

/-- A payload whose collected reason value is an arbitrary string outside
the fixed vocabulary, on a successful call with one user turn. -/
def pizzaPayload : Payload :=
  { analysis := { reason_value := some ("pizza"), call_successful := some ("success") },
    transcript := [{ role := some ("user"), message := some ("hi") }] }

/-- A payload on which every rule pass leaves the call type `"unknown"`:
no collected reason, empty summary, three turns, one user turn, and a
long enough duration. -/
def aiFallbackPayload : Payload :=
  { analysis := { call_successful := some ("success") },
    metadata := { call_duration_secs := some 30 },
    transcript := [{ role := some ("agent"), message := some ("hello") },
                   { role := some ("user"), message := some ("x") },
                   { role := some ("agent"), message := some ("y") }] }

/-- A payload whose transcript has no user turn. -/
def noUserPayload : Payload :=
  { analysis := { call_successful := some ("success") },
    transcript := [{ role := some ("agent"), message := some ("hello") }] }

/-- A payload with a 1002 connection error and one user turn. -/
def errorPayload : Payload :=
  { metadata := { call_duration_secs := some 42, error := some { code := some 1002 } },
    transcript := [{ role := some ("user"), message := some ("hi") }] }

/-- A one-day schedule: open 09:00-10:30, 30-minute slots. -/
def demoSched : String → DaySchedule := fun _ =>
  { openTime := some ("09:00"), closeTime := some ("10:30"), default_slot_duration := some 30 }

/-- A booked 9:00-9:30 appointment on the epoch day. -/
def demoAppt : Appointment := { wall_start_time := some 540, wall_end_time := some 570 }

/-- Three raw webhook documents: one without a receive time, two with. -/
def demoDocs : List RawDoc :=
  [ { received_at_utc := none,
      transcript := [{ role := some ("user"), message := some ("x") }] },
    { received_at_utc := some 50 },
    { received_at_utc := some 20 } ]

/-- Two raw webhook documents, both with receive times. -/
def demoDocsTimed : List RawDoc :=
  [ { received_at_utc := some 50 }, { received_at_utc := some 20 } ]

/-! Theorems.  General string helpers first. -/

theorem strStarts_append (p s q : String) (h : strStarts p q = true) :
    strStarts (p ++ s) q = true := by
  unfold strStarts at h ⊢
  rw [List.isPrefixOf_iff_prefix] at h ⊢
  rw [String.data_append]
  exact h.trans (List.prefix_append _ _)

theorem strStarts_ne (s c : String) (hc : c ≠ "") (h : strStarts s c = true) : s ≠ "" := by
  intro hs
  subst hs
  unfold strStarts at h
  rw [List.isPrefixOf_iff_prefix] at h
  apply hc
  have hnil : c.data = [] := List.prefix_nil.mp h
  cases c
  simp_all

theorem hasFailureCategory_ne (s : String) (h : hasFailureCategory s) : s ≠ "" := by
  obtain ⟨c, hc, hs⟩ := h
  refine strStarts_ne s c ?_ hs
  fin_cases hc <;> decide

/-! Category lemmas for the failure-reason engine. -/

theorem dfrError_cat (m : Metadata) (r : String) (h : dfrError m = some r) :
    hasFailureCategory r := by
  cases hE : m.error with
  | none => simp [dfrError, hE] at h
  | some e =>
    simp only [dfrError, hE] at h
    split_ifs at h with h1 h2 <;> injection h with h3 <;> subst h3
    · exact ⟨"Network Issue:", by decide, by decide⟩
    · exact ⟨"Inactivity Timeout:", by decide, by decide⟩
    · exact ⟨"Technical Error:", by decide, strStarts_append _ _ _ (by decide)⟩

theorem dfrEvalTech_cat (sAI : String → String → String) (l : List (String × EvalData))
    (r : String) (h : dfrEvalTech sAI l = some r) : hasFailureCategory r := by
  induction l with
  | nil => simp [dfrEvalTech] at h
  | cons e rest ih =>
    simp only [dfrEvalTech] at h
    split_ifs at h with h1
    · injection h with h2
      subst h2
      exact ⟨"Technical Error:", by decide, strStarts_append _ _ _ (by decide)⟩
    · exact ih h

theorem dfrTermination_cat (tr : List Turn) (term : String) (dur : Int) (ts : String)
    (sAI : String → String → String) (r : String)
    (h : dfrTermination tr term dur ts sAI = some (some r)) : hasFailureCategory r := by
  simp only [dfrTermination] at h
  split_ifs at h <;>
  first
    | (cases h <;>
       first
         | exact ⟨"Early Hangup:", by decide, by decide⟩
         | exact ⟨"AI limitation:", by decide, by decide⟩
         | exact ⟨"Mid-Call Hangup:", by decide, by decide⟩
         | exact ⟨"Technical Error:", by decide, strStarts_append _ _ _ (by decide)⟩)
    | (injection h with h2
       split at h2 <;>
       first
         | (cases h2 <;>
            first
              | exact ⟨"AI limitation:", by decide, by decide⟩
              | exact ⟨"Mid-Call Hangup:", by decide, by decide⟩
              | exact ⟨"Technical Error:", by decide, strStarts_append _ _ _ (by decide)⟩)
         | (split_ifs at h2 <;>
            cases h2 <;>
            first
              | exact ⟨"AI limitation:", by decide, by decide⟩
              | exact ⟨"Mid-Call Hangup:", by decide, by decide⟩
              | exact ⟨"Technical Error:", by decide, strStarts_append _ _ _ (by decide)⟩))

theorem dfrEvalRemaining_cat (sAI : String → String → String) (l : List (String × EvalData))
    (r : String) (h : dfrEvalRemaining sAI l = some r) : hasFailureCategory r := by
  induction l with
  | nil => simp [dfrEvalRemaining] at h
  | cons e rest ih =>
    simp only [dfrEvalRemaining] at h
    split_ifs at h with h1 h2
    · injection h with h3
      subst h3
      exact ⟨"Technical Error:", by decide, strStarts_append _ _ _ (by decide)⟩
    · injection h with h3
      subst h3
      exact ⟨"AI limitation:", by decide, strStarts_append _ _ _ (by decide)⟩
    · exact ih h

theorem determine_failure_reason_cat (p : Payload) (sAI : String → String → String)
    (r : String) (h : determine_failure_reason p sAI = some r) : hasFailureCategory r := by
  simp only [determine_failure_reason] at h
  split at h
  next r1 h1 =>
    injection h with h2
    exact h2 ▸ dfrError_cat _ _ h1
  next h1 =>
  split at h
  next r1 h2 =>
    injection h with h3
    exact h3 ▸ dfrEvalTech_cat _ _ _ h2
  next h2 =>
  split at h
  next o h3 =>
    subst h
    exact dfrTermination_cat _ _ _ _ _ _ h3
  next h3 =>
  split_ifs at h with h4 h5
  · injection h with h6; subst h6
    exact ⟨"Inactivity Timeout:", by decide, by decide⟩
  · injection h with h6; subst h6
    exact ⟨"Early Hangup:", by decide, by decide⟩
  · split at h
    next r1 h7 =>
      injection h with h8
      exact h8 ▸ dfrEvalRemaining_cat _ _ _ h7
    next h7 =>
      injection h with h8; subst h8
      exact ⟨"Mid-Call Hangup:", by decide,
        strStarts_append _ _ _ (strStarts_append _ _ _ (by decide))⟩

/-! Layering lemmas: each step of `_determine_failure_reason` fires only
when every earlier step declined. -/

theorem dfr_eq_of_error (p : Payload) (sAI : String → String → String) (r : String)
    (h : dfrError p.metadata = some r) : determine_failure_reason p sAI = some r := by
  simp only [determine_failure_reason, h]

theorem dfr_eq_of_evalTech (p : Payload) (sAI : String → String → String) (r : String)
    (h0 : dfrError p.metadata = none)
    (h : dfrEvalTech sAI p.analysis.evaluation_criteria_results = some r) :
    determine_failure_reason p sAI = some r := by
  simp only [determine_failure_reason, h0, h]

theorem dfr_eq_of_termination (p : Payload) (sAI : String → String → String)
    (o : Option String)
    (h0 : dfrError p.metadata = none)
    (h1 : dfrEvalTech sAI p.analysis.evaluation_criteria_results = none)
    (h : dfrTermination p.transcript (p.metadata.termination_reason.getD (""))
      (p.metadata.call_duration_secs.getD 0) (p.analysis.transcript_summary.getD ("")) sAI =
      some o) :
    determine_failure_reason p sAI = o := by
  simp only [determine_failure_reason, h0, h1, h]

theorem dfr_eq_of_timeout (p : Payload) (sAI : String → String → String)
    (h0 : dfrError p.metadata = none)
    (h1 : dfrEvalTech sAI p.analysis.evaluation_criteria_results = none)
    (h2 : dfrTermination p.transcript (p.metadata.termination_reason.getD (""))
      (p.metadata.call_duration_secs.getD 0) (p.analysis.transcript_summary.getD ("")) sAI = none)
    (h3 : containsSub (strLower (p.metadata.termination_reason.getD (""))) ("timeout") = true) :
    determine_failure_reason p sAI = some ("Inactivity Timeout: Patient stopped responding") := by
  simp only [determine_failure_reason, h0, h1, h2, h3, if_true]

theorem dfr_eq_of_short (p : Payload) (sAI : String → String → String)
    (h0 : dfrError p.metadata = none)
    (h1 : dfrEvalTech sAI p.analysis.evaluation_criteria_results = none)
    (h2 : dfrTermination p.transcript (p.metadata.termination_reason.getD (""))
      (p.metadata.call_duration_secs.getD 0) (p.analysis.transcript_summary.getD ("")) sAI = none)
    (h3 : containsSub (strLower (p.metadata.termination_reason.getD (""))) ("timeout") = false)
    (h4 : p.metadata.call_duration_secs.getD 0 < 5) :
    determine_failure_reason p sAI = some ("Early Hangup: Call lasted less than 5 seconds") := by
  simp only [determine_failure_reason, h0, h1, h2, h3, h4]
  simp

theorem dfr_eq_of_evalRemaining (p : Payload) (sAI : String → String → String) (r : String)
    (h0 : dfrError p.metadata = none)
    (h1 : dfrEvalTech sAI p.analysis.evaluation_criteria_results = none)
    (h2 : dfrTermination p.transcript (p.metadata.termination_reason.getD (""))
      (p.metadata.call_duration_secs.getD 0) (p.analysis.transcript_summary.getD ("")) sAI = none)
    (h3 : containsSub (strLower (p.metadata.termination_reason.getD (""))) ("timeout") = false)
    (h4 : ¬ p.metadata.call_duration_secs.getD 0 < 5)
    (h : dfrEvalRemaining sAI p.analysis.evaluation_criteria_results = some r) :
    determine_failure_reason p sAI = some r := by
  simp only [determine_failure_reason, h0, h1, h2, h3, h4, h]
  simp

theorem dfr_eq_default (p : Payload) (sAI : String → String → String)
    (h0 : dfrError p.metadata = none)
    (h1 : dfrEvalTech sAI p.analysis.evaluation_criteria_results = none)
    (h2 : dfrTermination p.transcript (p.metadata.termination_reason.getD (""))
      (p.metadata.call_duration_secs.getD 0) (p.analysis.transcript_summary.getD ("")) sAI = none)
    (h3 : containsSub (strLower (p.metadata.termination_reason.getD (""))) ("timeout") = false)
    (h4 : ¬ p.metadata.call_duration_secs.getD 0 < 5)
    (h : dfrEvalRemaining sAI p.analysis.evaluation_criteria_results = none) :
    determine_failure_reason p sAI =
      some ("Mid-Call Hangup: Call ended after " ++
        toString (p.metadata.call_duration_secs.getD 0) ++ "s") := by
  simp only [determine_failure_reason, h0, h1, h2, h3, h4, h]
  simp

/-- C10: `_determine_failure_reason` returns `None` (a natural call end)
or a string carrying one of the six fixed category labels as a prefix,
and its checks are layered: the metadata error first, then technical
evaluation failures, then termination/hangup patterns, then the timeout
check, then very short calls, then the remaining evaluation rationales,
with the "Mid-Call Hangup" message as the final default. -/
theorem determine_failure_reason_layered (p : Payload) (sAI : String → String → String) :
    (determine_failure_reason p sAI = none ∨
      ∃ r, determine_failure_reason p sAI = some r ∧ hasFailureCategory r)
    ∧ (∀ r, dfrError p.metadata = some r → determine_failure_reason p sAI = some r)
    ∧ (dfrError p.metadata = none →
        ∀ r, dfrEvalTech sAI p.analysis.evaluation_criteria_results = some r →
          determine_failure_reason p sAI = some r)
    ∧ (dfrError p.metadata = none →
        dfrEvalTech sAI p.analysis.evaluation_criteria_results = none →
        ∀ o, dfrTermination p.transcript (p.metadata.termination_reason.getD (""))
            (p.metadata.call_duration_secs.getD 0) (p.analysis.transcript_summary.getD ("")) sAI =
            some o →
          determine_failure_reason p sAI = o)
    ∧ (dfrError p.metadata = none →
        dfrEvalTech sAI p.analysis.evaluation_criteria_results = none →
        dfrTermination p.transcript (p.metadata.termination_reason.getD (""))
          (p.metadata.call_duration_secs.getD 0) (p.analysis.transcript_summary.getD ("")) sAI =
          none →
        containsSub (strLower (p.metadata.termination_reason.getD (""))) ("timeout") = true →
          determine_failure_reason p sAI = some ("Inactivity Timeout: Patient stopped responding"))
    ∧ (dfrError p.metadata = none →
        dfrEvalTech sAI p.analysis.evaluation_criteria_results = none →
        dfrTermination p.transcript (p.metadata.termination_reason.getD (""))
          (p.metadata.call_duration_secs.getD 0) (p.analysis.transcript_summary.getD ("")) sAI =
          none →
        containsSub (strLower (p.metadata.termination_reason.getD (""))) ("timeout") = false →
        p.metadata.call_duration_secs.getD 0 < 5 →
          determine_failure_reason p sAI =
            some ("Early Hangup: Call lasted less than 5 seconds"))
    ∧ (dfrError p.metadata = none →
        dfrEvalTech sAI p.analysis.evaluation_criteria_results = none →
        dfrTermination p.transcript (p.metadata.termination_reason.getD (""))
          (p.metadata.call_duration_secs.getD 0) (p.analysis.transcript_summary.getD ("")) sAI =
          none →
        containsSub (strLower (p.metadata.termination_reason.getD (""))) ("timeout") = false →
        ¬ p.metadata.call_duration_secs.getD 0 < 5 →
        ∀ r, dfrEvalRemaining sAI p.analysis.evaluation_criteria_results = some r →
          determine_failure_reason p sAI = some r)
    ∧ (dfrError p.metadata = none →
        dfrEvalTech sAI p.analysis.evaluation_criteria_results = none →
        dfrTermination p.transcript (p.metadata.termination_reason.getD (""))
          (p.metadata.call_duration_secs.getD 0) (p.analysis.transcript_summary.getD ("")) sAI =
          none →
        containsSub (strLower (p.metadata.termination_reason.getD (""))) ("timeout") = false →
        ¬ p.metadata.call_duration_secs.getD 0 < 5 →
        dfrEvalRemaining sAI p.analysis.evaluation_criteria_results = none →
          determine_failure_reason p sAI =
            some ("Mid-Call Hangup: Call ended after " ++
              toString (p.metadata.call_duration_secs.getD 0) ++ "s")) := by
  refine ⟨?_, ?_, ?_, ?_, ?_, ?_, ?_, ?_⟩
  · cases hr : determine_failure_reason p sAI with
    | none => exact Or.inl rfl
    | some r => exact Or.inr ⟨r, rfl, determine_failure_reason_cat p sAI r hr⟩
  · exact fun r h => dfr_eq_of_error p sAI r h
  · exact fun h0 r h => dfr_eq_of_evalTech p sAI r h0 h
  · exact fun h0 h1 o h => dfr_eq_of_termination p sAI o h0 h1 h
  · exact fun h0 h1 h2 h3 => dfr_eq_of_timeout p sAI h0 h1 h2 h3
  · exact fun h0 h1 h2 h3 h4 => dfr_eq_of_short p sAI h0 h1 h2 h3 h4
  · exact fun h0 h1 h2 h3 h4 r h => dfr_eq_of_evalRemaining p sAI r h0 h1 h2 h3 h4 h
  · exact fun h0 h1 h2 h3 h4 h => dfr_eq_default p sAI h0 h1 h2 h3 h4 h

/-- Witness for C10: on the concrete 1002-error payload the theorem's
error layer yields the network-issue reason. -/
theorem determine_failure_reason_layered_witness :
    determine_failure_reason errorPayload sAITrivial =
      some ("Network Issue: Patient\x27s connection dropped or phone signal lost") :=
  (determine_failure_reason_layered errorPayload sAITrivial).2.1
    ("Network Issue: Patient\x27s connection dropped or phone signal lost") (by decide)

/-! Propagation lemmas for the failure-reason adjustment chain of
lines 268-347. -/

theorem callbackResolutionClear_some (slp : String) (fr : Option String) (r : String)
    (h : callbackResolutionClear slp fr = some r) : fr = some r := by
  cases fr with
  | none => simp [callbackResolutionClear] at h
  | some x =>
    simp only [callbackResolutionClear] at h
    split_ifs at h <;> first | exact h | cases h

theorem transferLimitationFix_some (slp : String) (fr : Option String) (r : String)
    (h : transferLimitationFix slp fr = some r) :
    fr = some r ∨ r = "AI limitation: Agent cannot transfer calls to receptionist" := by
  simp only [transferLimitationFix] at h
  split_ifs at h with h1
  · cases fr with
    | none =>
      simp only [] at h
      cases h
      exact Or.inr rfl
    | some x =>
      simp only [] at h
      split_ifs at h with h2
      · cases h
        exact Or.inr rfl
      · exact Or.inl h
  · exact Or.inl h

theorem abruptHangupFix_some (slp : String) (fr : Option String) (r : String)
    (h : abruptHangupFix slp fr = some r) :
    fr = some r ∨ r = "Mid-Call Hangup: Patient hung up during conversation" := by
  cases fr with
  | none => simp [abruptHangupFix] at h
  | some x =>
    simp only [abruptHangupFix] at h
    split_ifs at h with h1
    · cases h
      exact Or.inr rfl
    · exact Or.inl h

theorem unknownStatusFix_some (csf ct : String) (umc : Nat) (fr : Option String) (r : String)
    (h : unknownStatusFix csf ct umc fr = some r) :
    fr = some r ∨ r = "No User Input: Patient did not respond" ∨
      r = "Mid-Call Hangup: Patient hung up during conversation" := by
  simp only [unknownStatusFix] at h
  split_ifs at h <;>
    first
      | exact Or.inl h
      | (cases h
         exact Or.inr (Or.inl rfl))
      | (cases h
         exact Or.inr (Or.inr rfl))

theorem adjustedFr_ne (p : Payload) (sAI : String → String → String) (cs ct : String)
    (umc : Nat) (r : String)
    (h : unknownStatusFix (p.analysis.call_successful.getD ("unknown")) ct umc
      (abruptHangupFix (strLower cs) (transferLimitationFix (strLower cs)
        (callbackResolutionClear (strLower cs) (determine_failure_reason p sAI)))) = some r) :
    r ≠ "" := by
  rcases unknownStatusFix_some _ _ _ _ _ h with h1 | h1 | h1
  · rcases abruptHangupFix_some _ _ _ h1 with h2 | h2
    · rcases transferLimitationFix_some _ _ _ h2 with h3 | h3
      · have h4 := callbackResolutionClear_some _ _ _ h3
        exact hasFailureCategory_ne r (determine_failure_reason_cat p sAI r h4)
      · subst h3; decide
    · subst h2; decide
  · subst h1; decide
  · subst h1; decide

theorem failureOutcome_inv (ct : String) (unres : Bool) (slp : String) (fr : Option String)
    (hfr : ∀ r, fr = some r → r ≠ "") :
    ((failureOutcome ct unres slp fr).1 = "Success" ∧ (failureOutcome ct unres slp fr).2 = none) ∨
    ((failureOutcome ct unres slp fr).1 = "Failure" ∧
      ∃ r, (failureOutcome ct unres slp fr).2 = some r ∧ r ≠ "") := by
  cases fr with
  | some x => exact Or.inr ⟨rfl, x, rfl, hfr x rfl⟩
  | none =>
    simp only [failureOutcome]
    split_ifs with h1 h2 h3
    · exact Or.inr ⟨rfl, _, rfl, by decide⟩
    · exact Or.inr ⟨rfl, _, rfl, by decide⟩
    · exact Or.inr ⟨rfl, _, rfl, by decide⟩
    · exact Or.inl ⟨rfl, rfl⟩

theorem resultStage_inv (p : Payload) (sAI : String → String → String) (cs ct : String)
    (unres : Bool) (umc : Nat) :
    ((resultStage p sAI cs ct unres umc).1 = "Success" ∧
      (resultStage p sAI cs ct unres umc).2 = none) ∨
    ((resultStage p sAI cs ct unres umc).1 = "Failure" ∧
      ∃ r, (resultStage p sAI cs ct unres umc).2 = some r ∧ r ≠ "") := by
  unfold resultStage
  split_ifs with h1
  · exact Or.inl ⟨rfl, rfl⟩
  · exact failureOutcome_inv _ _ _ _ (fun r h => adjustedFr_ne p sAI cs ct umc r h)

theorem analyzeRecord_status_fr (p : Payload) (o : Option (Option String × Option String))
    (sAI : String → String → String) (now : Int) (hu : userMsgCount p.transcript ≠ 0) :
    (analyzeRecord p o sAI now).result_status =
      (resultStage p sAI
        ((aiStage (ai_classify_call o) (ruleCallType p) (callSummary0 p.analysis)).2)
        ((aiStage (ai_classify_call o) (ruleCallType p) (callSummary0 p.analysis)).1)
        (ruleUnresolved p) (userMsgCount p.transcript)).1 ∧
    (analyzeRecord p o sAI now).failure_reason =
      (resultStage p sAI
        ((aiStage (ai_classify_call o) (ruleCallType p) (callSummary0 p.analysis)).2)
        ((aiStage (ai_classify_call o) (ruleCallType p) (callSummary0 p.analysis)).1)
        (ruleUnresolved p) (userMsgCount p.transcript)).2 := by
  simp [analyzeRecord, hu]

/-- C8: in every record `analyze_call` builds, `failure_reason` is
non-`None` exactly when `result_status` is `"Failure"`; `"Success"` and
`"-"` records carry no failure reason, and every `"Failure"` record
carries a non-empty reason string. -/
theorem analyze_call_failure_reason_iff (p : Payload)
    (o : Option (Option String × Option String)) (sAI : String → String → String) (now : Int) :
    ((analyzeRecord p o sAI now).failure_reason ≠ none ↔
      (analyzeRecord p o sAI now).result_status = "Failure")
    ∧ ((analyzeRecord p o sAI now).result_status = "Success" →
        (analyzeRecord p o sAI now).failure_reason = none)
    ∧ ((analyzeRecord p o sAI now).result_status = "-" →
        (analyzeRecord p o sAI now).failure_reason = none)
    ∧ ((analyzeRecord p o sAI now).result_status = "Failure" →
        ∃ fr, (analyzeRecord p o sAI now).failure_reason = some fr ∧ fr ≠ "") := by
  by_cases hu : userMsgCount p.transcript = 0
  · simp [analyzeRecord, hu]
  · obtain ⟨e1, e2⟩ := analyzeRecord_status_fr p o sAI now hu
    rw [e1, e2]
    rcases resultStage_inv p sAI
        ((aiStage (ai_classify_call o) (ruleCallType p) (callSummary0 p.analysis)).2)
        ((aiStage (ai_classify_call o) (ruleCallType p) (callSummary0 p.analysis)).1)
        (ruleUnresolved p) (userMsgCount p.transcript) with
      ⟨h1, h2⟩ | ⟨h1, r, h2, h3⟩
    · rw [h1, h2]
      refine ⟨by simp, fun _ => rfl, fun _ => rfl, fun hf => absurd hf (by decide)⟩
    · rw [h1, h2]
      exact ⟨by simp, fun hf => absurd hf (by decide), fun hf => absurd hf (by decide),
        fun _ => ⟨r, rfl, h3⟩⟩

/-- Witness for C8: on the concrete 1002-error payload the record is a
failure and its reason is the non-empty network-issue string. -/
theorem analyze_call_failure_reason_iff_witness :
    ∃ fr, (analyzeRecord errorPayload none sAITrivial 0).failure_reason = some fr ∧ fr ≠ "" :=
  (analyze_call_failure_reason_iff errorPayload none sAITrivial 0).2.2.2 (by decide)

/-- C9: when the transcript has no user turn, the final override makes
`analyze_call` return call type `"no conversation"`, result status `"-"`
(neither `"Success"` nor `"Failure"`), and no failure reason, regardless
of what the earlier passes produced. -/
theorem analyze_call_no_conversation (p : Payload)
    (o : Option (Option String × Option String)) (sAI : String → String → String) (now : Int)
    (h : userMsgCount p.transcript = 0) :
    (analyzeRecord p o sAI now).call_type = "no conversation"
    ∧ (analyzeRecord p o sAI now).result_status = "-"
    ∧ (analyzeRecord p o sAI now).failure_reason = none
    ∧ (analyzeRecord p o sAI now).result_status ≠ "Success"
    ∧ (analyzeRecord p o sAI now).result_status ≠ "Failure" := by
  refine ⟨?_, ?_, ?_, ?_, ?_⟩ <;> simp [analyzeRecord, h]

/-- Witness for C9: the agent-only payload gets the no-conversation
override. -/
theorem analyze_call_no_conversation_witness :
    (analyzeRecord noUserPayload none sAITrivial 0).call_type = "no conversation"
    ∧ (analyzeRecord noUserPayload none sAITrivial 0).result_status = "-"
    ∧ (analyzeRecord noUserPayload none sAITrivial 0).failure_reason = none
    ∧ (analyzeRecord noUserPayload none sAITrivial 0).result_status ≠ "Success"
    ∧ (analyzeRecord noUserPayload none sAITrivial 0).result_status ≠ "Failure" :=
  analyze_call_no_conversation noUserPayload none sAITrivial 0 (by decide)

/-- C1: `analyze_call` returns, absent an internal exception, a record
carrying the `(call_type, result_status, failure_reason)` triple
together with the timestamp, conversation id, call status, duration and
call summary (the fields of `Record`), the result status drawn from
`{"Success", "Failure", "-"}`; when an exception is raised it returns
`None` instead. -/
theorem analyze_call_record_shape (p : Payload)
    (o : Option (Option String × Option String)) (sAI : String → String → String) (now : Int) :
    analyze_call p o sAI now false = some (analyzeRecord p o sAI now)
    ∧ analyze_call p o sAI now true = none
    ∧ (analyzeRecord p o sAI now).result_status ∈ ["Success", "Failure", "-"] := by
  refine ⟨rfl, rfl, ?_⟩
  by_cases hu : userMsgCount p.transcript = 0
  · simp [analyzeRecord, hu]
  · obtain ⟨e1, _⟩ := analyzeRecord_status_fr p o sAI now hu
    rw [e1]
    rcases resultStage_inv p sAI
        ((aiStage (ai_classify_call o) (ruleCallType p) (callSummary0 p.analysis)).2)
        ((aiStage (ai_classify_call o) (ruleCallType p) (callSummary0 p.analysis)).1)
        (ruleUnresolved p) (userMsgCount p.transcript) with
      ⟨h1, _⟩ | ⟨h1, _⟩ <;> rw [h1] <;> simp

/-! Shape lemmas: each classification pass either keeps the incoming
call type or replaces it by a member of the fixed vocabulary. -/

theorem initialCallType_shape (p : Payload) :
    initialCallType p = "unknown" ∨ p.analysis.reason_value = some (initialCallType p) := by
  cases hv : p.analysis.reason_value with
  | none => simp [initialCallType, hv]
  | some v =>
    simp only [initialCallType, hv]
    split_ifs with h
    · exact Or.inl rfl
    · exact Or.inr rfl

theorem callbackStage_shape (tr : List Turn) (dur : Int) (cs ct : String) :
    callbackStage tr dur cs ct = ct ∨
    callbackStage tr dur cs ct ∈ (["callback request", "incomplete transcript"] : List String) := by
  unfold callbackStage
  split_ifs <;> simp

theorem deriveIntentType_shape (sl ct : String) :
    deriveIntentType sl ct = ct ∨
    deriveIntentType sl ct ∈ (["rescheduling", "confirmation", "booking"] : List String) := by
  unfold deriveIntentType
  split_ifs <;> simp

theorem summaryOverride1_shape (tr : List Turn) (sl ct : String) :
    (summaryOverride1 tr sl ct).1 = ct ∨
    (summaryOverride1 tr sl ct).1 ∈ (["rescheduling", "confirmation", "booking"] : List String) := by
  unfold summaryOverride1
  split_ifs with h
  · exact deriveIntentType_shape sl ct
  · exact Or.inl rfl

theorem reschedCallbackFix_shape (sl ct : String) :
    reschedCallbackFix sl ct = ct ∨ reschedCallbackFix sl ct = "rescheduling" := by
  unfold reschedCallbackFix
  split_ifs <;> simp

theorem positiveOverride_shape (sl ct : String) :
    positiveOverride sl ct = ct ∨
    positiveOverride sl ct ∈ (["rescheduling", "confirmation", "booking"] : List String) := by
  unfold positiveOverride
  split_ifs <;> simp

theorem summaryStage_fst_shape (tr : List Turn) (cs ct : String) :
    (summaryStage tr cs ct).1 = ct ∨
    (summaryStage tr cs ct).1 ∈ (["rescheduling", "confirmation", "booking"] : List String) := by
  unfold summaryStage
  split_ifs with h
  · exact Or.inl rfl
  · simp only []
    rcases positiveOverride_shape (strLower cs)
        (reschedCallbackFix (strLower cs) (summaryOverride1 tr (strLower cs) ct).1) with h1 | h1
    · rw [h1]
      rcases reschedCallbackFix_shape (strLower cs) (summaryOverride1 tr (strLower cs) ct).1 with
        h2 | h2
      · rw [h2]
        exact summaryOverride1_shape tr (strLower cs) ct
      · rw [h2]
        right
        simp
    · right
      exact h1

theorem ai_classify_fst (oracle : Option (Option String × Option String)) :
    (ai_classify_call oracle).1 = none ∨
    ∃ c, (ai_classify_call oracle).1 = some c ∧ c ∈ allowedTypes := by
  unfold ai_classify_call
  rcases oracle with _ | ⟨ct, s⟩
  · exact Or.inl rfl
  · rcases ct with _ | c
    · exact Or.inl rfl
    · simp only []
      split_ifs with h
      · exact Or.inr ⟨c, rfl, h⟩
      · exact Or.inl rfl

theorem allowedTypes_ne_empty_str : ∀ c ∈ allowedTypes, c ≠ "" := by decide

theorem aiStage_fst_shape (oracle : Option (Option String × Option String)) (ct cs : String) :
    (aiStage (ai_classify_call oracle) ct cs).1 = ct ∨
    (aiStage (ai_classify_call oracle) ct cs).1 ∈ allowedTypes := by
  unfold aiStage
  split_ifs with h
  · rcases ai_classify_fst oracle with h1 | ⟨c, h1, hmem⟩
    · rw [h1]
      exact Or.inl rfl
    · rw [h1]
      simp only []
      rw [if_neg (allowedTypes_ne_empty_str c hmem)]
      exact Or.inr hmem
  · exact Or.inl rfl

theorem aiStage_eq_of_ne (a : Option String × Option String) (ct cs : String)
    (h : ct ≠ "unknown") : aiStage a ct cs = (ct, cs) := by
  unfold aiStage
  rw [if_neg h]

/-- C2 counterexample: the collected reason value flows through to the
emitted call type unchanged, so the classifier can emit a call type
outside the fixed vocabulary. -/
theorem analyze_call_type_vocabulary_cex :
    (analyzeRecord pizzaPayload none sAITrivial 0).call_type = "pizza"
    ∧ "pizza" ∉ callTypeVocabulary := ⟨by decide, by decide⟩

/-- C2 (amended): the call type `analyze_call` emits is either a member
of the fixed vocabulary or exactly the reason value supplied in the
payload's data-collection results. -/
theorem analyze_call_type_near_vocabulary (p : Payload)
    (o : Option (Option String × Option String)) (sAI : String → String → String) (now : Int) :
    (analyzeRecord p o sAI now).call_type ∈ callTypeVocabulary ∨
    p.analysis.reason_value = some ((analyzeRecord p o sAI now).call_type) := by
  by_cases hu : userMsgCount p.transcript = 0
  · have hnc : (analyzeRecord p o sAI now).call_type = "no conversation" := by
      simp [analyzeRecord, hu]
    rw [hnc]
    left
    decide
  · have e : (analyzeRecord p o sAI now).call_type =
      (aiStage (ai_classify_call o) (ruleCallType p) (callSummary0 p.analysis)).1 := by
      simp [analyzeRecord, hu]
    rw [e]
    rcases aiStage_fst_shape o (ruleCallType p) (callSummary0 p.analysis) with h1 | h1
    · rw [h1]
      unfold ruleCallType
      rcases summaryStage_fst_shape p.transcript (callSummary0 p.analysis)
          (callbackStage p.transcript (p.metadata.call_duration_secs.getD 0)
            (callSummary0 p.analysis) (initialCallType p)) with h2 | h2
      · rw [h2]
        rcases callbackStage_shape p.transcript (p.metadata.call_duration_secs.getD 0)
            (callSummary0 p.analysis) (initialCallType p) with h3 | h3
        · rw [h3]
          rcases initialCallType_shape p with h4 | h4
          · rw [h4]
            left
            decide
          · right
            exact h4
        · left
          exact (by decide : ∀ x ∈ (["callback request", "incomplete transcript"] : List String),
            x ∈ callTypeVocabulary) _ h3
      · left
        exact (by decide : ∀ x ∈ (["rescheduling", "confirmation", "booking"] : List String),
          x ∈ callTypeVocabulary) _ h2
    · left
      exact (by decide : ∀ x ∈ allowedTypes, x ∈ callTypeVocabulary) _ h1

/-! The AI fallback is strict: the rule passes never leave `"unknown"`
when the patient never spoke, and the oracle is consulted only when the
rule passes leave `"unknown"`. -/

theorem callbackStage_not_unknown (tr : List Turn) (dur : Int) (cs ct : String)
    (hu : userMsgCount tr = 0) : callbackStage tr dur cs ct ≠ "unknown" := by
  unfold callbackStage
  split_ifs with h1 h2 h3
  · decide
  · decide
  · exact absurd (by simp [tooShortNumeric, hu]) h3
  · intro hct
    exact h1 (Or.inl hct)

theorem ruleCallType_unknown_user (p : Payload) (h : ruleCallType p = "unknown") :
    userMsgCount p.transcript ≠ 0 := by
  intro hu
  unfold ruleCallType at h
  rcases summaryStage_fst_shape p.transcript (callSummary0 p.analysis)
      (callbackStage p.transcript (p.metadata.call_duration_secs.getD 0)
        (callSummary0 p.analysis) (initialCallType p)) with h2 | h2
  · rw [h2] at h
    exact callbackStage_not_unknown _ _ _ _ hu h
  · rw [h] at h2
    exact absurd h2 (by decide)

/-- C3: the LLM is strictly a fallback: the analysis result does not
depend on the AI oracle unless the rule passes left the call type
`"unknown"`; the validated AI reply is always from the allowed list and
is adopted as the call type; and when the AI returns nothing the call
type stays `"unknown"` and the result is the one computed with no AI
reply at all. -/
theorem ai_fallback_strict (p : Payload) (o o2 : Option (Option String × Option String))
    (sAI : String → String → String) (now : Int) :
    (ruleCallType p ≠ "unknown" → analyzeRecord p o sAI now = analyzeRecord p o2 sAI now)
    ∧ ((ai_classify_call o).1 = none ∨ ∃ c, (ai_classify_call o).1 = some c ∧ c ∈ allowedTypes)
    ∧ (∀ c, ruleCallType p = "unknown" → (ai_classify_call o).1 = some c →
        (analyzeRecord p o sAI now).call_type = c)
    ∧ (ai_classify_call o = (none, none) →
        analyzeRecord p o sAI now = analyzeRecord p none sAI now)
    ∧ (ruleCallType p = "unknown" → (ai_classify_call o).1 = none →
        (analyzeRecord p o sAI now).call_type = "unknown") := by
  refine ⟨?_, ai_classify_fst o, ?_, ?_, ?_⟩
  · intro h
    simp only [analyzeRecord, aiStage_eq_of_ne _ _ _ h]
  · intro c h hc
    have hu := ruleCallType_unknown_user p h
    have hmem : c ∈ allowedTypes := by
      rcases ai_classify_fst o with h0 | ⟨c2, hc2, hm2⟩
      · rw [h0] at hc
        cases hc
      · rw [hc2] at hc
        injection hc with e
        rw [← e]
        exact hm2
    have e : (analyzeRecord p o sAI now).call_type =
        (aiStage (ai_classify_call o) (ruleCallType p) (callSummary0 p.analysis)).1 := by
      simp [analyzeRecord, hu]
    rw [e, h]
    unfold aiStage
    rw [if_pos rfl]
    simp only [hc]
    rw [if_neg (allowedTypes_ne_empty_str c hmem)]
  · intro h
    simp only [analyzeRecord, h]
    rfl
  · intro h hc
    have hu := ruleCallType_unknown_user p h
    have e : (analyzeRecord p o sAI now).call_type =
        (aiStage (ai_classify_call o) (ruleCallType p) (callSummary0 p.analysis)).1 := by
      simp [analyzeRecord, hu]
    rw [e, h]
    unfold aiStage
    rw [if_pos rfl]
    simp only [hc]

/-- Witness for C3: on the rule-unclassifiable payload a validated AI
reply of `"booking"` is adopted. -/
theorem ai_fallback_strict_witness :
    (analyzeRecord aiFallbackPayload (some (some ("booking"), some ("Booked.")))
      sAITrivial 0).call_type = "booking" :=
  (ai_fallback_strict aiFallbackPayload (some (some ("booking"), some ("Booked."))) none
    sAITrivial 0).2.2.1 ("booking") (by decide) (by decide)

/-! Availability computation: C4. -/

/-- C4: every slot returned by `get_available_slots_for_date` is
conflict-free: for each fetched appointment that is neither cancelled
nor broken and whose parsed start falls on the target date, the slot
interval does not overlap the appointment interval, where a missing end
time defaults to the start plus 30 minutes. -/
theorem get_available_slots_conflict_free (sched : String → DaySchedule)
    (booked : List Appointment) (target : Nat) (s : String)
    (hs : s ∈ get_available_slots_for_date sched booked target)
    (apt : Appointment) (ha : apt ∈ booked)
    (hc : apt.cancelled = false) (hb : apt.broken = false)
    (aptStart : Nat) (hstart : apt.wall_start_time = some aptStart)
    (hdate : dateOf aptStart = dateOf target) :
    replaceTime target (parse_time s) +
        (sched (dayName (dateOf target))).default_slot_duration.getD 30 ≤ aptStart ∨
    apt.wall_end_time.getD (aptStart + 30) ≤ replaceTime target (parse_time s) := by
  simp only [get_available_slots_for_date] at hs
  split_ifs at hs with h1
  · exact absurd hs (by simp)
  · split at hs
    next ot ct hot =>
      split_ifs at hs with h2
      · exact absurd hs (by simp)
      · have hp := (List.mem_filter.mp hs).2
        unfold slotConflictFree at hp
        rw [List.all_eq_true] at hp
        have := hp apt ha
        rw [hc, hb, hstart] at this
        simp only [Bool.false_or, Bool.or_false] at this
        rw [if_pos hdate] at this
        · exact of_decide_eq_true this
    next hot =>
      exact absurd hs (by simp)

/-- Witness for C4: with a 9:00-9:30 booked appointment and a
09:00-10:30 day of 30-minute slots, the surviving slot `"9:30 AM"` does
not overlap the appointment. -/
theorem get_available_slots_conflict_free_witness :
    replaceTime 0 (parse_time ("9:30 AM")) +
        (demoSched (dayName (dateOf 0))).default_slot_duration.getD 30 ≤ 540 ∨
    demoAppt.wall_end_time.getD (540 + 30) ≤ replaceTime 0 (parse_time ("9:30 AM")) :=
  get_available_slots_conflict_free demoSched [demoAppt] 0 ("9:30 AM") (by decide)
    demoAppt (by decide) rfl rfl 540 rfl rfl

/-! Slot-generation invariants: C5. -/

theorem genSlotsAux_mem (dur endT : Nat) (lunch : Option (Nat × Nat)) (fuel cur m : Nat)
    (hm : m ∈ genSlotsAux dur endT lunch fuel cur) :
    cur ≤ m ∧ m + dur ≤ endT ∧ dur ∣ (m - cur) ∧ lunchSkip lunch m dur = false := by
  induction fuel generalizing cur with
  | zero => simp [genSlotsAux] at hm
  | succ n ih =>
    simp only [genSlotsAux] at hm
    by_cases h1 : cur + dur ≤ endT
    · rw [if_pos h1] at hm
      by_cases h2 : lunchSkip lunch cur dur = true
      · rw [if_pos h2] at hm
        simp only [List.nil_append] at hm
        obtain ⟨ha, hb, hc, hd4⟩ := ih (cur + dur) hm
        refine ⟨by omega, hb, ?_, hd4⟩
        have he : m - cur = (m - (cur + dur)) + dur := by omega
        rw [he]
        exact Nat.dvd_add hc (Nat.dvd_refl dur)
      · rw [if_neg h2] at hm
        simp only [List.singleton_append, List.mem_cons] at hm
        rcases hm with rfl | hr
        · exact ⟨le_refl _, h1, by simp, by simpa using h2⟩
        · obtain ⟨ha, hb, hc, hd4⟩ := ih (cur + dur) hr
          refine ⟨by omega, hb, ?_, hd4⟩
          have he : m - cur = (m - (cur + dur)) + dur := by omega
          rw [he]
          exact Nat.dvd_add hc (Nat.dvd_refl dur)
    · rw [if_neg h1] at hm
      simp at hm

theorem genSlotsAux_chain (dur endT : Nat) (lunch : Option (Nat × Nat)) (hd : 0 < dur)
    (fuel cur : Nat) :
    List.Chain' (fun a b => a < b ∧ dur ∣ (b - a)) (genSlotsAux dur endT lunch fuel cur) := by
  induction fuel generalizing cur with
  | zero => simp [genSlotsAux]
  | succ n ih =>
    simp only [genSlotsAux]
    by_cases h1 : cur + dur ≤ endT
    · rw [if_pos h1]
      by_cases h2 : lunchSkip lunch cur dur = true
      · rw [if_pos h2]
        simpa using ih (cur + dur)
      · rw [if_neg h2]
        simp only [List.singleton_append]
        rw [List.chain'_cons']
        refine ⟨?_, ih (cur + dur)⟩
        intro b hb
        have hbmem : b ∈ genSlotsAux dur endT lunch n (cur + dur) := List.mem_of_mem_head? hb
        obtain ⟨ha, _, hc, _⟩ := genSlotsAux_mem dur endT lunch n (cur + dur) b hbmem
        refine ⟨by omega, ?_⟩
        have he : b - cur = (b - (cur + dur)) + dur := by omega
        rw [he]
        exact Nat.dvd_add hc (Nat.dvd_refl dur)
    · rw [if_neg h1]
      simp

/-- C5: every slot `_generate_time_slots` emits is the 12-hour rendering
of a minute value that lies fully inside the parsed working hours, does
not overlap the lunch-break interval when one is given, and successive
emitted starts strictly increase in steps of the slot duration. -/
theorem generate_time_slots_within_hours (start_time end_time : String) (d : Nat)
    (lb : Option (String × String)) (hd : 0 < d) :
    generate_time_slots start_time end_time d lb =
      (genSlotsMin (parse_time start_time) (parse_time end_time) d
        (lb.map (fun l => (parse_time l.1, parse_time l.2)))).map fmt12
    ∧ (∀ m ∈ genSlotsMin (parse_time start_time) (parse_time end_time) d
          (lb.map (fun l => (parse_time l.1, parse_time l.2))),
        parse_time start_time ≤ m ∧ m + d ≤ parse_time end_time ∧
        ∀ ls le, lb.map (fun l => (parse_time l.1, parse_time l.2)) = some (ls, le) →
          m + d ≤ ls ∨ le ≤ m)
    ∧ List.Chain' (fun a b => a < b ∧ d ∣ (b - a))
        (genSlotsMin (parse_time start_time) (parse_time end_time) d
          (lb.map (fun l => (parse_time l.1, parse_time l.2)))) := by
  refine ⟨rfl, ?_, genSlotsAux_chain _ _ _ hd _ _⟩
  intro m hm
  obtain ⟨ha, hb, _, hd4⟩ := genSlotsAux_mem d (parse_time end_time)
    (lb.map (fun l => (parse_time l.1, parse_time l.2))) (parse_time end_time + 1)
    (parse_time start_time) m hm
  refine ⟨ha, hb, ?_⟩
  intro ls le hl
  rw [hl] at hd4
  simp only [lunchSkip] at hd4
  have h5 : (decide (m + d ≤ ls) || decide (le ≤ m)) = true := by
    revert hd4
    cases decide (m + d ≤ ls) || decide (le ≤ m) <;> simp
  rcases (Bool.or_eq_true _ _).mp h5 with h | h
  · exact Or.inl (of_decide_eq_true h)
  · exact Or.inr (of_decide_eq_true h)

/-- Witness for C5: concrete 09:00-11:00 day, 30-minute slots, 10:00-10:30
lunch break. -/
theorem generate_time_slots_within_hours_witness :
    generate_time_slots ("09:00") ("11:00") 30 (some ("10:00", "10:30")) =
      (genSlotsMin (parse_time ("09:00")) (parse_time ("11:00")) 30
        ((some ("10:00", "10:30")).map (fun l => (parse_time l.1, parse_time l.2)))).map fmt12
    ∧ (∀ m ∈ genSlotsMin (parse_time ("09:00")) (parse_time ("11:00")) 30
          ((some ("10:00", "10:30")).map (fun l => (parse_time l.1, parse_time l.2))),
        parse_time ("09:00") ≤ m ∧ m + 30 ≤ parse_time ("11:00") ∧
        ∀ ls le, (some ("10:00", "10:30")).map (fun l => (parse_time l.1, parse_time l.2)) =
            some (ls, le) →
          m + 30 ≤ ls ∨ le ≤ m)
    ∧ List.Chain' (fun a b => a < b ∧ 30 ∣ (b - a))
        (genSlotsMin (parse_time ("09:00")) (parse_time ("11:00")) 30
          ((some ("10:00", "10:30")).map (fun l => (parse_time l.1, parse_time l.2)))) :=
  generate_time_slots_within_hours ("09:00") ("11:00") 30 (some ("10:00", "10:30")) (by decide)

/-! The 7-day availability map: C6. -/

/-- C6: `get_available_slots_next_7_days` contains exactly the days among
the 7 consecutive days starting today whose slot list is non-empty, keyed
`"DayName (YYYY-MM-DD)"` and mapped to that (non-empty) slot list; and a
day whose schedule is `"Closed"` or lacks an open or close time gets the
empty slot list from `get_available_slots_for_date`, so it never
appears. -/
theorem next_7_days_structure (sched : String → DaySchedule)
    (bookedFor : Nat → List Appointment) (today : Nat) :
    (∀ kv ∈ get_available_slots_next_7_days sched bookedFor today,
      ∃ i, i < 7 ∧ kv.1 = dayKey (dateOf (today + i * 1440)) ∧
        kv.2 = get_available_slots_for_date sched (bookedFor (today + i * 1440))
          (today + i * 1440) ∧
        kv.2 ≠ [])
    ∧ (∀ i, i < 7 →
        get_available_slots_for_date sched (bookedFor (today + i * 1440)) (today + i * 1440) ≠
          [] →
        (dayKey (dateOf (today + i * 1440)),
          get_available_slots_for_date sched (bookedFor (today + i * 1440)) (today + i * 1440)) ∈
          get_available_slots_next_7_days sched bookedFor today)
    ∧ (∀ (sched2 : String → DaySchedule) (booked2 : List Appointment) (t2 : Nat),
        ((sched2 (dayName (dateOf t2))).status = some ("Closed") ∨
         (sched2 (dayName (dateOf t2))).openTime = none ∨
         (sched2 (dayName (dateOf t2))).openTime = some ("") ∨
         (sched2 (dayName (dateOf t2))).closeTime = none ∨
         (sched2 (dayName (dateOf t2))).closeTime = some ("")) →
        get_available_slots_for_date sched2 booked2 t2 = []) := by
  refine ⟨?_, ?_, ?_⟩
  · intro kv hkv
    simp only [get_available_slots_next_7_days] at hkv
    obtain ⟨i, hi, hf⟩ := List.mem_filterMap.mp hkv
    have hi7 : i < 7 := List.mem_range.mp hi
    by_cases he : (get_available_slots_for_date sched (bookedFor (today + i * 1440))
        (today + i * 1440)).isEmpty = true
    · rw [if_pos he] at hf
      cases hf
    · rw [if_neg he] at hf
      injection hf with hf
      refine ⟨i, hi7, ?_, ?_, ?_⟩
      · rw [← hf]
      · rw [← hf]
      · rw [← hf]
        intro hnil
        apply he
        have hnil2 : get_available_slots_for_date sched (bookedFor (today + i * 1440))
            (today + i * 1440) = [] := hnil
        rw [hnil2]
        rfl
  · intro i hi7 hne
    simp only [get_available_slots_next_7_days]
    refine List.mem_filterMap.mpr ⟨i, List.mem_range.mpr hi7, ?_⟩
    have he : ¬ ((get_available_slots_for_date sched (bookedFor (today + i * 1440))
        (today + i * 1440)).isEmpty = true) := by
      simpa using hne
    rw [if_neg he]
  · intro sched2 booked2 t2 hcond
    simp only [get_available_slots_for_date]
    split_ifs with h1
    · rfl
    · cases hot : (sched2 (dayName (dateOf t2))).openTime with
      | none => rfl
      | some ot =>
        cases hct : (sched2 (dayName (dateOf t2))).closeTime with
        | none => rfl
        | some ct =>
          show (if ot = "" ∨ ct = "" then ([] : List String)
            else List.filter
              (slotConflictFree t2 ((sched2 (dayName (dateOf t2))).default_slot_duration.getD 30)
                booked2)
              (generate_time_slots ot ct
                ((sched2 (dayName (dateOf t2))).default_slot_duration.getD 30)
                (sched2 (dayName (dateOf t2))).lunch_break)) = []
          rw [if_pos ?_]
          rcases hcond with h | h | h | h | h
          · exact absurd h h1
          · rw [hot] at h
            cases h
          · rw [hot] at h
            injection h with h
            exact Or.inl h
          · rw [hct] at h
            cases h
          · rw [hct] at h
            injection h with h
            exact Or.inr h

/-- Witness for C6: with the demo schedule, no appointments and today at
the epoch, the first day appears with its non-empty slot list. -/
theorem next_7_days_structure_witness :
    (dayKey (dateOf (0 + 0 * 1440)),
      get_available_slots_for_date demoSched ([] : List Appointment) (0 + 0 * 1440)) ∈
      get_available_slots_next_7_days demoSched (fun _ => ([] : List Appointment)) 0 :=
  (next_7_days_structure demoSched (fun _ => ([] : List Appointment)) 0).2.1 0 (by decide)
    (by decide)

/-! The cleaned-transcripts report: C7. -/

/-- C7: the report cannot be produced as claimed.  Present `est_time`
values are timezone-aware while the `datetime.max` sort key of line 101
is naive, so `list.sort` raises `TypeError` exactly on the cleaned lists
mixing timed and timeless entries — the very inputs where the claimed
absent-last placement would show — and the endpoint errors instead of
returning (the three-document demo input is such a case).  On every
input where the sort does return, the entries are a permutation of the
cleaned documents sorted by `est_time` oldest-first, the timeless
entries (necessarily all or none of the list) only ever followed by
timeless entries, and each entry's conversation is exactly the
agent/user turns with non-empty messages in original transcript
order. -/
theorem cleaned_transcripts_sort_typeerror :
    get_cleaned_transcripts_last_24h demoDocs = none
    ∧ (∀ docs : List RawDoc, get_cleaned_transcripts_last_24h docs = none ↔
        sortRaises (docs.map cleanedOf) = true)
    ∧ (∀ (docs : List RawDoc) (l : List CleanedEntry),
        get_cleaned_transcripts_last_24h docs = some l →
        l.Perm (docs.map cleanedOf)
        ∧ l.Sorted estLe
        ∧ List.Pairwise (fun a b =>
            (∀ ta tb, a.est_time = some ta → b.est_time = some tb → ta ≤ tb) ∧
            (a.est_time = none → b.est_time = none)) l
        ∧ (∀ e ∈ l, ∃ d ∈ docs, e = cleanedOf d ∧
            e.conversation = strJoin ("\n") ((d.transcript.filter convKeep).map convLine))) := by
  refine ⟨by decide, ?_, ?_⟩
  · intro docs
    by_cases h : sortRaises (docs.map cleanedOf) = true
    · simp [get_cleaned_transcripts_last_24h, h]
    · simp [get_cleaned_transcripts_last_24h, h]
  · intro docs l hl
    simp only [get_cleaned_transcripts_last_24h] at hl
    by_cases h : sortRaises (docs.map cleanedOf) = true
    · rw [if_pos h] at hl
      cases hl
    · rw [if_neg h] at hl
      injection hl with hl
      subst hl
      have hperm : ((docs.map cleanedOf).insertionSort estLe).Perm (docs.map cleanedOf) :=
        List.perm_insertionSort estLe (docs.map cleanedOf)
      have hsorted : ((docs.map cleanedOf).insertionSort estLe).Sorted estLe :=
        List.sorted_insertionSort estLe (docs.map cleanedOf)
      have hnomix : ∀ a ∈ docs.map cleanedOf, a.est_time = none →
          ∀ b ∈ docs.map cleanedOf, b.est_time = none := by
        intro a ha hae b hb
        simp only [sortRaises, Bool.and_eq_true, List.any_eq_true, not_and, not_exists] at h
        cases hbe : b.est_time with
        | none => rfl
        | some tb =>
          exfalso
          have hsome : ∃ x ∈ docs.map cleanedOf, x.est_time.isSome = true :=
            ⟨b, hb, by rw [hbe]; rfl⟩
          have hnone : ∃ x ∈ docs.map cleanedOf, x.est_time.isNone = true :=
            ⟨a, ha, by rw [hae]; rfl⟩
          rcases hnone with ⟨x, hx, hxn⟩
          rcases hsome with ⟨y, hy, hyn⟩
          exact h ⟨x, hx, hxn⟩ y hy hyn
      refine ⟨hperm, hsorted, ?_, ?_⟩
      · refine List.Pairwise.imp_of_mem (fun {a b} ha hb hab => ?_) hsorted
        constructor
        · intro ta tb hta htb
          have hk : sortKey a.est_time ≤ sortKey b.est_time := hab
          rw [hta, htb] at hk
          simpa [sortKey] using hk
        · intro hna
          exact hnomix a (hperm.mem_iff.mp ha) hna b (hperm.mem_iff.mp hb)
      · intro e he
        have hmem : e ∈ docs.map cleanedOf := hperm.mem_iff.mp he
        obtain ⟨d, hd, rfl⟩ := List.mem_map.mp hmem
        exact ⟨d, hd, rfl, rfl⟩

/-- Witness for C7: on the all-timed two-document input the sort
returns, and the theorem's non-raising conjunct yields the oldest-first
report. -/
theorem cleaned_transcripts_sort_typeerror_witness :
    get_cleaned_transcripts_last_24h demoDocsTimed =
      some [{ est_time := some 20 }, { est_time := some 50 }]
    ∧ ([({ est_time := some 20 } : CleanedEntry),
        { est_time := some 50 }]).Sorted estLe :=
  ⟨by decide,
    (cleaned_transcripts_sort_typeerror.2.2 demoDocsTimed
      [{ est_time := some 20 }, { est_time := some 50 }] (by decide)).2.1⟩
